import Mathlib

/- Shallow embedding of the natural-language-to-SQL chat server
   (src/ais-mcp-chatbot/server.js) and of the AWS dashboard backend
   (src/aws-mcp-servers/backend/src/server.js).

   JavaScript strings are modelled as lists of characters (`Str`), JSON
   values as the inductive `JVal`.  The two external collaborators - the
   LLM completion API and the MCP database tool - are stubbed: every
   handler takes the reply each stub would produce as an explicit
   argument, and the number of calls made to each stub is part of the
   handler's result, so that "this path performs no LLM call" is a
   provable statement. -/

abbrev Str := List Char

/-- Shorthand turning a Lean string literal into the `Str` model. -/
def str (s : String) : Str := s.toList

/-- ASCII whitespace, the whitespace JavaScript `trim` removes on the
strings this server manipulates. -/
def isWS (c : Char) : Bool := c == ' ' || c == '\t' || c == '\n' || c == '\r'

/-- Model of `String.prototype.trimEnd`. -/
def trimEnd (s : Str) : Str := (s.reverse.dropWhile isWS).reverse

/-- Model of `String.prototype.trim`. -/
def jsTrim (s : Str) : Str := trimEnd (s.dropWhile isWS)

/-- The lowercase-to-uppercase letter table of ASCII `toUpperCase`. -/
def upTable : List (Char × Char) :=
  [('a','A'), ('b','B'), ('c','C'), ('d','D'), ('e','E'), ('f','F'), ('g','G'),
   ('h','H'), ('i','I'), ('j','J'), ('k','K'), ('l','L'), ('m','M'), ('n','N'),
   ('o','O'), ('p','P'), ('q','Q'), ('r','R'), ('s','S'), ('t','T'), ('u','U'),
   ('v','V'), ('w','W'), ('x','X'), ('y','Y'), ('z','Z')]

/-- ASCII model of `toUpperCase`, character by character. -/
def upChar (c : Char) : Char :=
  ((upTable.find? (fun q => q.1 == c)).map Prod.snd).getD c

/-- ASCII model of `toLowerCase`, character by character. -/
def lowChar (c : Char) : Char :=
  ((upTable.find? (fun q => q.2 == c)).map Prod.fst).getD c

/-- Model of `toUpperCase`. -/
def strUpper (s : Str) : Str := s.map upChar

/-- Model of `toLowerCase`. -/
def strLower (s : Str) : Str := s.map lowChar

/-- Model of `String.prototype.includes`. -/
def jsIncludes : Str → Str → Bool
  | [], needle => needle.isPrefixOf ([] : Str)
  | c :: cs, needle => needle.isPrefixOf (c :: cs) || jsIncludes cs needle

/-- Model of `split('\n')`: `splitLines (str "a\nb") = [str "a", str "b"]`,
and a trailing newline yields a trailing empty piece, as in JavaScript. -/
def splitLines : Str → List Str
  | [] => [[]]
  | c :: cs =>
    if c = '\n' then [] :: splitLines cs
    else
      match splitLines cs with
      | [] => [[c]]
      | l :: ls => (c :: l) :: ls

/-- Split a string at the first occurrence of `pat`, returning the text
before it and the text after it (`indexOf` semantics: the leftmost match). -/
def splitFirst (pat : Str) : Str → Option (Str × Str)
  | [] => if pat.isPrefixOf ([] : Str) then some ([], []) else none
  | c :: cs =>
    if pat.isPrefixOf (c :: cs) then some ([], (c :: cs).drop pat.length)
    else
      match splitFirst pat cs with
      | none => none
      | some (pre, post) => some (c :: pre, post)

/- ---------------------------------------------------------------------
   Question Translator (server.js, translateQuestionToSQL, lines 114-205)
   --------------------------------------------------------------------- -/

/-- The schema-change deny-list (server.js line 117). -/
def schemaKeywords : List Str :=
  [str "store", str "add column", str "create table", str "alter table",
   str "modify", str "additional field", str "new column"]

/-- The deny-list test (server.js line 118): case-insensitive substring
match of each keyword against the lowercased question. -/
def isSchemaQuestion (question : Str) : Bool :=
  schemaKeywords.any (fun keyword => jsIncludes (strLower question) keyword)

/-- The recognized SQL keywords (server.js line 174). -/
def sqlKeywords : List Str :=
  [str "SELECT", str "INSERT", str "UPDATE", str "DELETE", str "WITH",
   str "CREATE", str "ALTER"]

/-- Group 1 of the first match of the regex `/```sql\n(.*?)\n```/s`
(server.js line 168): the shortest text between the leftmost occurrence of
three backticks, `sql` and a newline and a following newline plus three
backticks. -/
def fenceSqlGroup (s : Str) : Option Str :=
  match splitFirst (str "```sql\n") s with
  | none => none
  | some (_, rest) =>
    match splitFirst (str "\n```") rest with
    | none => none
    | some (g, _) => some g

/-- Scan for the closing delimiter of the regex `/```\n?(.*?)\n?```/s`: the
lazy group ends at the first position where an optional newline and three
backticks match; everything before that position is the group. -/
def fenceClose : Str → Option Str
  | [] => none
  | c :: cs =>
    if (str "\n```").isPrefixOf (c :: cs) || (str "```").isPrefixOf (c :: cs) then some []
    else
      match fenceClose cs with
      | none => none
      | some g => some (c :: g)

/-- Group 1 of the first match of the regex `/```\n?(.*?)\n?```/s`
(server.js line 170). -/
def fenceAnyGroup (s : Str) : Option Str :=
  match splitFirst (str "```") s with
  | none => none
  | some (_, rest) =>
    let rest' := match rest with
      | '\n' :: t => t
      | r => r
    fenceClose rest'

/-- Markdown code-fence stripping (server.js lines 167-171).  When the
matched group trims to the empty string, JavaScript's `|| sqlQuery`
falls back to the original string. -/
def stripFences (s : Str) : Str :=
  if jsIncludes s (str "```sql") then
    match fenceSqlGroup s with
    | some g => if jsTrim g = [] then s else jsTrim g
    | none => s
  else if jsIncludes s (str "```") then
    match fenceAnyGroup s with
    | some g => if jsTrim g = [] then s else jsTrim g
    | none => s
  else s

/-- Per-line test of the scan loop (server.js line 180): the trimmed line,
uppercased, starts with a recognized SQL keyword. -/
def lineHasSQLKeyword (l : Str) : Bool :=
  sqlKeywords.any (fun keyword => keyword.isPrefixOf (strUpper (jsTrim l)))

/-- Discard leading explanatory text (server.js lines 175-189): find the
first line starting with a SQL keyword, keep the lines from there on,
trimmed; keep the input if no line matches.  The source finds the index
with `lines.indexOf(line)` on the first matching `line` of its loop,
which is the first matching index. -/
def stripLeadingProse (s : Str) : Str :=
  let lines := splitLines s
  match lines.findIdx? lineHasSQLKeyword with
  | some idx =>
    let cleanQuery := jsTrim (List.intercalate (str "\n") (lines.drop idx))
    if cleanQuery = [] then s else cleanQuery
  | none => s

/-- Final validation test (server.js line 192): the string, uppercased and
trimmed, starts with a recognized SQL keyword. -/
def startsWithSQLKeyword (s : Str) : Bool :=
  sqlKeywords.any (fun keyword => keyword.isPrefixOf (jsTrim (strUpper s)))

/-- The whole sanitizer applied to the model's completion (server.js lines
164-193): trim, strip code fences, drop leading prose, and force the
result to `INVALID_QUERY` when it still does not start with a SQL
keyword. -/
def sanitizeCompletion (completion : Str) : Str :=
  let s := stripLeadingProse (stripFences (jsTrim completion))
  if startsWithSQLKeyword s then s else str "INVALID_QUERY"

/-- The message of the error thrown at server.js lines 196-198. -/
def domainRejectedMessage : Str :=
  str "I can only answer questions about your education database. Please ask about students, teachers, districts, institutions, attendance, interventions, notifications, or messaging data."

/-- Result of the Translator: the value returned or the error thrown, plus
the number of completion-API calls performed. -/
structure TransResult where
  result : Except Str Str
  llmCalls : Nat

/-- `translateQuestionToSQL` (server.js lines 114-205), with the LLM's
reply supplied as the `completion` argument.  Control flow of the source:
schema questions short-circuit before the completion call; after
sanitizing, a string that does not start with a SQL keyword is *returned*
as `INVALID_QUERY` (line 193), and only a string that both starts with a
SQL keyword and equals `INVALID_QUERY` would reach the `throw` at line
196. -/
def translateQuestionToSQL (question completion : Str) : TransResult :=
  if isSchemaQuestion question then ⟨.ok (str "SCHEMA_QUESTION"), 0⟩
  else
    let sqlQuery := stripLeadingProse (stripFences (jsTrim completion))
    if ¬ startsWithSQLKeyword sqlQuery then ⟨.ok (str "INVALID_QUERY"), 1⟩
    else if sqlQuery = str "INVALID_QUERY" then ⟨.error domainRejectedMessage, 1⟩
    else ⟨.ok sqlQuery, 1⟩

/- ---------------------------------------------------------------------
   JSON values and the Query Executor (server.js, executeSQLQuery,
   lines 207-252)
   --------------------------------------------------------------------- -/

/-- JavaScript/JSON values, as far as the server manipulates them. -/
inductive JVal where
  | undefined
  | jnull
  | jbool (b : Bool)
  | jnum (n : Int)
  | jstr (s : Str)
  | jarr (elems : List JVal)
  | jobj (fields : List (Str × JVal))

/-- JavaScript truthiness: `undefined`, `null`, `false`, `0` and the empty
string are falsy; every array and object (the empty ones included) is
truthy. -/
def truthy : JVal → Bool
  | .undefined => false
  | .jnull => false
  | .jbool b => b
  | .jnum n => !(n == 0)
  | .jstr s => !s.isEmpty
  | .jarr _ => true
  | .jobj _ => true

/-- First binding of a field name in an object's field list. -/
def lookupField : List (Str × JVal) → Str → Option JVal
  | [], _ => none
  | (k, v) :: fs, name => if k = name then some v else lookupField fs name

/-- JavaScript member access `v.name`: `undefined` when absent or when `v`
is not an object. -/
def getField (v : JVal) (name : Str) : JVal :=
  match v with
  | .jobj fs => (lookupField fs name).getD .undefined
  | _ => .undefined

/-- Model of `Array.isArray`. -/
def isJArray : JVal → Bool
  | .jarr _ => true
  | _ => false

/-- JavaScript `a || b`. -/
def jsOr (a b : JVal) : JVal := if truthy a then a else b

/-- The Executor's result triple (server.js lines 237-241). -/
structure QueryResult where
  success : Bool
  data : JVal
  rowCount : Nat

/-- Normalization of the MCP tool's response (server.js lines 237-241):
`data` is `result.content || result`, and `rowCount` is the length of
`result.content` when that field is an array, `1` otherwise. -/
def normalizeToolResult (result : JVal) : QueryResult :=
  { success := true
    data := jsOr (getField result (str "content")) result
    rowCount :=
      match getField result (str "content") with
      | .jarr xs => xs.length
      | _ => 1 }

/-- Stub of the MCP tool: what `client.connect` and the remote `query`
tool call would produce. -/
structure ToolEnv where
  connect : Except Str Unit
  callTool : Str → Except Str JVal

/-- Outcome of one Executor call: the value returned or the error thrown,
the number of `client.close()` calls, and the number of remote tool
invocations. -/
structure ExecOutcome where
  result : Except Str QueryResult
  closes : Nat
  toolCalls : Nat

/-- Prefix of the error the outer catch re-raises (server.js line 250). -/
def dbFailPrefix : Str := str "Database query failed: "

/-- `executeSQLQuery` (server.js lines 207-252): connect, call the remote
`query` tool, close; the inner catch closes and rethrows on a tool error,
the outer catch wraps any error's message with `dbFailPrefix`. -/
def executeSQLQuery (sqlQuery : Str) (env : ToolEnv) : ExecOutcome :=
  match env.connect with
  | .error e => ⟨.error (dbFailPrefix ++ e), 0, 0⟩
  | .ok _ =>
    match env.callTool sqlQuery with
    | .ok result => ⟨.ok (normalizeToolResult result), 1, 1⟩
    | .error e => ⟨.error (dbFailPrefix ++ e), 1, 1⟩

/- ---------------------------------------------------------------------
   Result Narrator (server.js, formatResponse, lines 254-297)
   --------------------------------------------------------------------- -/

/-- Model of `JSON.stringify` on a string: quote it, escaping quotes,
backslashes and newlines. -/
def jsonEscape (s : Str) : Str :=
  '"' :: (s.flatMap fun c =>
    if c = '"' then ['\\', '"']
    else if c = '\\' then ['\\', '\\']
    else if c = '\n' then ['\\', 'n']
    else [c]) ++ ['"']

mutual

/-- Model of `JSON.stringify` (the fallback formatter pretty-prints the
rows with it; the exact whitespace of `JSON.stringify(data, null, 2)` is
immaterial to every claim). -/
def jsonStringify : JVal → Str
  | .undefined => str "null"
  | .jnull => str "null"
  | .jbool true => str "true"
  | .jbool false => str "false"
  | .jnum n => (toString n).toList
  | .jstr s => jsonEscape s
  | .jarr xs => '[' :: jsonStringifyElems xs ++ [']']
  | .jobj fs => Char.ofNat 123 :: jsonStringifyFields fs ++ [Char.ofNat 125]

def jsonStringifyElems : List JVal → Str
  | [] => []
  | [x] => jsonStringify x
  | x :: xs => jsonStringify x ++ ',' :: jsonStringifyElems xs

def jsonStringifyFields : List (Str × JVal) → Str
  | [] => []
  | [(k, v)] => jsonEscape k ++ ':' :: jsonStringify v
  | (k, v) :: fs => jsonEscape k ++ ':' :: jsonStringify v ++ ',' :: jsonStringifyFields fs

end

/-- JavaScript property access `v.length`: arrays and strings have a
numeric length; an object has whatever its `length` field holds
(`undefined` when absent); every other value has no `length` property. -/
def jvalLength : JVal → JVal
  | .jarr xs => .jnum xs.length
  | .jstr s => .jnum s.length
  | .jobj fs => (lookupField fs (str "length")).getD .undefined
  | _ => .undefined

mutual

/-- JavaScript `toString` of an array element for `Array.prototype.join`:
`undefined` and `null` become the empty string. -/
def jsElemString : JVal → Str
  | .undefined => []
  | .jnull => []
  | .jbool true => str "true"
  | .jbool false => str "false"
  | .jnum n => (toString n).toList
  | .jstr s => s
  | .jarr xs => jsArrayJoin xs
  | .jobj _ => str "[object Object]"

/-- JavaScript `Array.prototype.toString`: the elements joined by commas
(what `ToPrimitive` produces for an array). -/
def jsArrayJoin : List JVal → Str
  | [] => []
  | [x] => jsElemString x
  | x :: xs => jsElemString x ++ ',' :: jsArrayJoin xs

end

/-- Model of JavaScript `ToNumber` on a string: whitespace-trimmed, the
empty string is 0, an optionally signed run of decimal digits is that
integer, and anything else is NaN (`none`).  Fractional, hexadecimal and
exponent literals are beyond the integer arithmetic this embedding
carries and are mapped to NaN. -/
def jsStringToNumber (s : Str) : Option Int :=
  let t := jsTrim s
  if t = [] then some 0
  else
    match t with
    | '+' :: ds => if ds ≠ [] && ds.all Char.isDigit
        then some (ds.foldl (fun a c => a * 10 + ((c.toNat : Int) - 48)) 0) else none
    | '-' :: ds => if ds ≠ [] && ds.all Char.isDigit
        then some (-(ds.foldl (fun a c => a * 10 + ((c.toNat : Int) - 48)) 0)) else none
    | ds => if ds.all Char.isDigit
        then some (ds.foldl (fun a c => a * 10 + ((c.toNat : Int) - 48)) 0) else none

/-- Model of JavaScript `ToNumber`: `undefined` is NaN (`none`), `null`
and `false` are 0, `true` is 1, a string parses numerically, an array
coerces through its comma-joined string, and a plain object becomes the
string "[object Object]", hence NaN. -/
def jsToNumber : JVal → Option Int
  | .jnum n => some n
  | .jnull => some 0
  | .jbool b => some (if b then 1 else 0)
  | .undefined => none
  | .jstr s => jsStringToNumber s
  | .jarr xs => jsStringToNumber (jsArrayJoin xs)
  | .jobj _ => jsStringToNumber (str "[object Object]")

/-- JavaScript `v > 0`: compare `ToNumber v` with zero; false when it is
NaN. -/
def jsGtZero (v : JVal) : Bool :=
  match jsToNumber v with
  | some n => decide (0 < n)
  | none => false

/-- JavaScript `data.length > 0` (server.js line 292): the `length`
property of the value, compared against zero.  True for a non-empty
array or string, and also for any object whose `length` field coerces
to a positive number. -/
def jvalLengthPos (v : JVal) : Bool := jsGtZero (jvalLength v)

/-- Fixed apology returned for a failed QueryResult (server.js line 257). -/
def apologyMessage : Str := str "Sorry, I encountered an error while querying the database."

/-- Fallback text when no rows exist (server.js line 295). -/
def queryDoneMessage : Str := str "Query completed successfully."

/-- The synthesized fallback narration (server.js line 293). -/
def foundMessage (rowCount : Nat) (data : JVal) : Str :=
  str "Found " ++ (toString rowCount).toList ++ str " result(s):\n\n" ++ jsonStringify data

/-- `formatResponse` (server.js lines 254-297), with the narration LLM's
outcome supplied as the `narration` argument: a failed QueryResult yields
the apology without a model call; a successful narration is returned
trimmed; when the narration call fails, the catch falls back to
`foundMessage` when `sqlResult.data && sqlResult.data.length > 0` and to
`queryDoneMessage` otherwise. -/
def formatResponse (sqlResult : QueryResult) (originalQuestion : Str)
    (narration : Except Str Str) : Str :=
  if !sqlResult.success then apologyMessage
  else
    match narration with
    | .ok text => jsTrim text
    | .error _ =>
      if truthy sqlResult.data && jvalLengthPos sqlResult.data then
        foundMessage sqlResult.rowCount sqlResult.data
      else queryDoneMessage

/-- Number of narration-LLM calls `formatResponse` performs: one unless
the QueryResult already failed (server.js lines 256-258). -/
def narrationCalls (sqlResult : QueryResult) : Nat :=
  if sqlResult.success then 1 else 0

/- ---------------------------------------------------------------------
   Schema-advice knowledge base (server.js, handleSchemaQuestion,
   lines 299-347)
   --------------------------------------------------------------------- -/

/-- The canned migration recipe returned when the question mentions both
"phone" and "parent" (server.js lines 303-343). -/
def phoneParentAdvice : Str := str
  ("**Storing Additional Phone Numbers for Parents**\n\nBased on your database schema, you have a `users` table with a `phone` field. Here are the best approaches to store additional phone numbers:\n\n**Option 1: Add Secondary Phone Column (Simplest)**\n```sql\n-- Add the new column\nALTER TABLE users ADD COLUMN secondary_phone VARCHAR(20);\n\n-- Add data for a specific parent\nUPDATE users \nSET secondary_phone = '555-123-4567' \nWHERE id = 123 AND profile_type = 'Parent';\n```\n\n"
   ++ "**Option 2: Create Phone Numbers Table (Most Flexible)**\n```sql\n-- Create dedicated phone numbers table\nCREATE TABLE user_phone_numbers (\n    id SERIAL PRIMARY KEY,\n    user_id INTEGER REFERENCES users(id),\n    phone_number VARCHAR(20) NOT NULL,\n    phone_type VARCHAR(20) DEFAULT 'mobile', -- 'home', 'work', 'mobile', 'emergency'\n    is_primary BOOLEAN DEFAULT FALSE,\n    created_at TIMESTAMP DEFAULT CURRENT_TIMESTAMP,\n    updated_at TIMESTAMP DEFAULT CURRENT_TIMESTAMP\n);\n\n-- Insert additional phone numbers\nINSERT INTO user_phone_numbers (user_id, phone_number, phone_type) \nVALUES (123, '555-123-4567', 'home');\n\n"
   ++ "-- Query all phone numbers for a parent\nSELECT u.first_name, u.last_name, u.phone as primary_phone, \n       upn.phone_number as additional_phone, upn.phone_type\nFROM users u\nLEFT JOIN user_phone_numbers upn ON u.id = upn.user_id\nWHERE u.profile_type = 'Parent' AND u.id = 123;\n```\n\n**Recommendation:** Use Option 2 (separate table) for maximum flexibility. It allows multiple phone numbers per parent with labels like 'home', 'work', 'emergency', etc.")

/-- The generic deferral message (server.js line 346). -/
def genericSchemaAdvice : Str := str
  "I can help you with database queries about your education data. For schema modifications, please consult with your database administrator or provide more specific details about what you'd like to store."

/-- `handleSchemaQuestion` (server.js lines 299-347): a small static
knowledge base keyed by keyword match on the lowercased question. -/
def handleSchemaQuestion (question : Str) : Str :=
  let questionLower := strLower question
  if jsIncludes questionLower (str "phone") && jsIncludes questionLower (str "parent") then
    phoneParentAdvice
  else genericSchemaAdvice

/- ---------------------------------------------------------------------
   Pipeline Orchestrator (server.js, app.post('/chat'), lines 349-398)
   --------------------------------------------------------------------- -/

/-- An HTTP response: status code and JSON body. -/
structure HttpRes where
  status : Nat
  body : JVal

/-- How many times each external service was invoked while handling one
request: translation-LLM calls, remote MCP tool calls, narration-LLM
calls. -/
structure Calls where
  llm : Nat
  tool : Nat
  narration : Nat

/-- The stubbed external world for one /chat request: the completion the
translation LLM would return, the MCP tool's behaviour, and the narration
LLM's outcome. -/
structure ChatEnv where
  completion : Str
  tool : ToolEnv
  narration : Except Str Str

/-- Body of the 400 response (server.js line 353). -/
def noMessageBody : JVal := .jobj [(str "error", .jstr (str "No message provided"))]

/-- The uniform 500 error envelope (server.js lines 393-397), with the
`error.message || '...'` fallback for an empty message. -/
def chatErrorBody (e : Str) : JVal :=
  .jobj [(str "success", .jbool false),
         (str "error", .jstr (if e.isEmpty then str "An error occurred while processing your request." else e))]

/-- The `/chat` handler (server.js lines 349-398).  `message` is the
`message` field of the request body (`none` when absent); JavaScript's
`if (!message)` also rejects an empty string.  The pipeline is
translate, then - unless the Translator produced `SCHEMA_QUESTION` -
execute and narrate; any thrown error is caught once and flattened to a
500 with `chatErrorBody`. -/
def chatHandler (message : Option Str) (env : ChatEnv) : HttpRes × Calls :=
  match message with
  | none => (⟨400, noMessageBody⟩, ⟨0, 0, 0⟩)
  | some m =>
    if m = [] then (⟨400, noMessageBody⟩, ⟨0, 0, 0⟩)
    else
      let t := translateQuestionToSQL m env.completion
      match t.result with
      | .error e => (⟨500, chatErrorBody e⟩, ⟨t.llmCalls, 0, 0⟩)
      | .ok sqlQuery =>
        if sqlQuery = str "SCHEMA_QUESTION" then
          (⟨200, .jobj [(str "success", .jbool true),
                        (str "response", .jstr (handleSchemaQuestion m)),
                        (str "sql", .jnull),
                        (str "rawData", .jnull)]⟩,
           ⟨t.llmCalls, 0, 0⟩)
        else
          let ex := executeSQLQuery sqlQuery env.tool
          match ex.result with
          | .error e => (⟨500, chatErrorBody e⟩, ⟨t.llmCalls, ex.toolCalls, 0⟩)
          | .ok sqlResult =>
            let formatted := formatResponse sqlResult m env.narration
            (⟨200, .jobj [(str "success", .jbool true),
                          (str "response", .jstr formatted),
                          (str "sql", .jstr sqlQuery),
                          (str "rawData", sqlResult.data)]⟩,
             ⟨t.llmCalls, ex.toolCalls, narrationCalls sqlResult⟩)

/- ---------------------------------------------------------------------
   AWS dashboard backend (src/aws-mcp-servers/backend/src/server.js)
   --------------------------------------------------------------------- -/

/-- The 503 body every non-demo endpoint returns when the AWS service is
not initialized (e.g. server.js lines 63-67). -/
def awsNotConnectedBody : JVal :=
  .jobj [(str "success", .jbool false),
         (str "error", .jstr (str "AWS service not connected")),
         (str "message", .jstr (str "AWS service is not available. Check your credentials and try again."))]

/-- The catch-all 500 body of the AWS endpoints. -/
def awsErrorBody (e : Str) : JVal :=
  .jobj [(str "success", .jbool false), (str "error", .jstr e)]

/-- `GET /api/aws/identity` (backend server.js lines 60-79), with the
outcome of `awsService.getCallerIdentity()` stubbed. -/
def identityEndpoint (awsInitialized : Bool) (getCallerIdentity : Except Str JVal) : HttpRes :=
  if !awsInitialized then ⟨503, awsNotConnectedBody⟩
  else
    match getCallerIdentity with
    | .ok identity => ⟨200, identity⟩
    | .error e => ⟨500, awsErrorBody e⟩

/-- One stack of the demo payload (backend server.js lines 91-111). -/
def demoStack (name status creation updated desc : String) : JVal :=
  .jobj [(str "StackName", .jstr (str name)),
         (str "StackStatus", .jstr (str status)),
         (str "CreationTime", .jstr (str creation)),
         (str "LastUpdatedTime", .jstr (str updated)),
         (str "TemplateDescription", .jstr (str desc))]

/-- The three demo stacks (backend server.js lines 90-112), with the
`Date(...).toISOString()` values evaluated. -/
def demoStacks : List JVal :=
  [demoStack "demo-web-app-stack" "CREATE_COMPLETE" "2024-01-15T10:30:00.000Z"
     "2024-01-20T14:45:00.000Z" "Demo web application infrastructure",
   demoStack "demo-database-stack" "UPDATE_COMPLETE" "2024-01-10T09:15:00.000Z"
     "2024-01-25T16:20:00.000Z" "Demo database resources",
   demoStack "demo-monitoring-stack" "CREATE_COMPLETE" "2024-01-12T11:00:00.000Z"
     "2024-01-18T13:30:00.000Z" "Demo monitoring and logging infrastructure"]

/-- The whole demo response of `GET /api/aws/stacks` (backend server.js
lines 87-115). -/
def demoStacksBody : JVal :=
  .jobj [(str "success", .jbool true),
         (str "stackCount", .jnum 3),
         (str "stacks", .jarr demoStacks),
         (str "isDemo", .jbool true),
         (str "message", .jstr (str "Demo mode - configure AWS credentials in .env file to see real stacks"))]

/-- Options assembled from the query parameters (backend server.js lines
119-128). -/
structure StackListOptions where
  stackStatusFilter : Option JVal
  region : Option JVal

/-- `GET /api/aws/stacks` (backend server.js lines 82-141): demo payload
when AWS is not initialized, otherwise the stubbed
`awsService.listCloudFormationStacks(options)`. -/
def stacksEndpoint (awsInitialized : Bool) (statusQ regionQ : JVal)
    (listCloudFormationStacks : StackListOptions → Except Str JVal) : HttpRes :=
  if !awsInitialized then ⟨200, demoStacksBody⟩
  else
    let options : StackListOptions :=
      { stackStatusFilter :=
          if truthy statusQ then
            some (if isJArray statusQ then statusQ else .jarr [statusQ])
          else none
        region := if truthy regionQ then some regionQ else none }
    match listCloudFormationStacks options with
    | .ok result => ⟨200, result⟩
    | .error e => ⟨500, awsErrorBody e⟩

/-- `GET /api/aws/stacks/:stackName` (backend server.js lines 144-165),
with `awsService.describeCloudFormationStack` stubbed. -/
def describeStackEndpoint (awsInitialized : Bool) (stackName : Str)
    (describeCloudFormationStack : Str → Except Str JVal) : HttpRes :=
  if !awsInitialized then ⟨503, awsNotConnectedBody⟩
  else
    match describeCloudFormationStack stackName with
    | .ok result => ⟨200, result⟩
    | .error e => ⟨500, awsErrorBody e⟩

/- ---------------------------------------------------------------------
   Claim-side vocabulary
   --------------------------------------------------------------------- -/

/-- The first line of a string that does not trim to the empty string
(the empty string when every line is blank). -/
def firstNonBlankLine (s : Str) : Str :=
  ((splitLines s).filter (fun l => !(jsTrim l).isEmpty)).headD []

/-- The specification's shape for a recognized first line: it starts,
case-insensitively, with one of the recognized SQL keywords. -/
def lineStartsWithSQLKeyword (l : Str) : Bool :=
  sqlKeywords.any (fun keyword => keyword.isPrefixOf (strUpper l))

/-- Field access on a JSON response body. -/
def bodyField (v : JVal) (name : Str) : Option JVal :=
  match v with
  | .jobj fs => lookupField fs name
  | _ => none

/-- A concrete stubbed world used by closed statements. -/
def chatEnvW : ChatEnv :=
  ⟨str "SELECT 1", ⟨.ok (), fun _ => .ok (.jarr [])⟩, .ok (str "fine")⟩

/-- A concrete tool stub whose remote query operation throws. -/
def toolEnvFail : ToolEnv := ⟨.ok (), fun _ => .error (str "boom")⟩

/- =====================================================================
   Theorems
   ===================================================================== -/

/-- C1: the claim says a completion sanitizing to INVALID_QUERY makes the
Translator raise the domain-rejection error.  The code instead *returns*
the string INVALID_QUERY to the Orchestrator: the keyword check at
server.js line 192 returns first, so the throw at line 196 is
unreachable.  This theorem evaluates the code on that path. -/
theorem invalidQuery_returned_not_raised (q c : Str)
    (hq : isSchemaQuestion q = false)
    (hc : sanitizeCompletion c = str "INVALID_QUERY") :
    translateQuestionToSQL q c = ⟨.ok (str "INVALID_QUERY"), 1⟩ := by
  have hks : startsWithSQLKeyword (str "INVALID_QUERY") = false := by decide
  unfold sanitizeCompletion at hc
  unfold translateQuestionToSQL
  rw [hq]
  by_cases h : startsWithSQLKeyword (stripLeadingProse (stripFences (jsTrim c))) = true
  · rw [if_pos h] at hc
    rw [hc] at h
    rw [hks] at h
    cases h
  · simp [h]

/-- C1 witness: the failing input, evaluated. -/
theorem invalidQuery_returned_not_raised_witness :
    translateQuestionToSQL (str "hi") (str "INVALID_QUERY") = ⟨.ok (str "INVALID_QUERY"), 1⟩ :=
  invalidQuery_returned_not_raised (str "hi") (str "INVALID_QUERY") (by decide) (by decide)

/-- C3: a question matching the schema-change deny-list makes the
Translator short-circuit to SCHEMA_QUESTION with zero completion-API
calls, whatever the model would have replied, and the /chat handler then
answers 200 with success true, the schema-advice string, a null sql and
a null rawData, with no tool call and no narration call. -/
theorem schema_question_short_circuit (q : Str) (env : ChatEnv)
    (h : isSchemaQuestion q = true) :
    (∀ completion, translateQuestionToSQL q completion = ⟨.ok (str "SCHEMA_QUESTION"), 0⟩) ∧
    chatHandler (some q) env =
      (⟨200, .jobj [(str "success", .jbool true),
                    (str "response", .jstr (handleSchemaQuestion q)),
                    (str "sql", .jnull),
                    (str "rawData", .jnull)]⟩, ⟨0, 0, 0⟩) := by
  have hq : ¬ q = [] := by
    intro hnil
    rw [hnil] at h
    exact absurd h (by decide)
  constructor
  · intro completion
    unfold translateQuestionToSQL
    rw [h]
    rfl
  · unfold chatHandler translateQuestionToSQL
    simp [hq, h]

/-- C3 witness. -/
theorem schema_question_short_circuit_witness :
    (∀ completion,
      translateQuestionToSQL (str "add column for parents") completion =
        ⟨.ok (str "SCHEMA_QUESTION"), 0⟩) ∧
    chatHandler (some (str "add column for parents")) chatEnvW =
      (⟨200, .jobj [(str "success", .jbool true),
                    (str "response", .jstr (handleSchemaQuestion (str "add column for parents"))),
                    (str "sql", .jnull),
                    (str "rawData", .jnull)]⟩, ⟨0, 0, 0⟩) :=
  schema_question_short_circuit (str "add column for parents") chatEnvW (by decide)

/-- C10: the deny-list test is a plain case-insensitive substring match,
so a keyword occurring inside a longer word also classifies the question
as SCHEMA_QUESTION, and the completion API is never invoked. -/
theorem schema_keyword_substring_match (q completion : Str)
    (h : schemaKeywords.any (fun k => jsIncludes (strLower q) k) = true) :
    translateQuestionToSQL q completion = ⟨.ok (str "SCHEMA_QUESTION"), 0⟩ := by
  unfold translateQuestionToSQL isSchemaQuestion
  rw [h]
  rfl

/-- C10 witness: "stored" contains the keyword "store". -/
theorem schema_keyword_substring_match_witness :
    translateQuestionToSQL (str "How many reports are stored?") (str "SELECT 1") =
      ⟨.ok (str "SCHEMA_QUESTION"), 0⟩ :=
  schema_keyword_substring_match (str "How many reports are stored?") (str "SELECT 1") (by decide)

/-- C4: once the connection is established, the Executor releases it
exactly once on the success path and on the path where the remote query
operation throws, and a tool error is re-raised wrapped with the
"Database query failed: " prefix. -/
theorem executor_releases_connection_once (sqlQuery : Str) (env : ToolEnv)
    (h : env.connect = .ok ()) :
    (executeSQLQuery sqlQuery env).closes = 1 ∧
    (∀ e, env.callTool sqlQuery = .error e →
      (executeSQLQuery sqlQuery env).result = .error (dbFailPrefix ++ e)) ∧
    (∀ v, env.callTool sqlQuery = .ok v →
      (executeSQLQuery sqlQuery env).result = .ok (normalizeToolResult v)) := by
  unfold executeSQLQuery
  rw [h]
  refine ⟨?_, ?_, ?_⟩
  · cases hc : env.callTool sqlQuery <;> simp
  · intro e he
    rw [he]
  · intro v hv
    rw [hv]

/-- C4 witness: a stub whose query operation throws. -/
theorem executor_releases_connection_once_witness :
    (executeSQLQuery (str "SELECT 1") toolEnvFail).closes = 1 ∧
    (executeSQLQuery (str "SELECT 1") toolEnvFail).result =
      .error (dbFailPrefix ++ str "boom") := by
  have h := executor_releases_connection_once (str "SELECT 1") toolEnvFail rfl
  exact ⟨h.1, h.2.1 (str "boom") rfl⟩

/-- C5 counterexample: when the tool returns a bare two-element array
with no content field, data is that array yet rowCount is 1, not the
length of data as the claim states. -/
theorem bare_array_rowcount_counterexample :
    (normalizeToolResult (.jarr [.jnum 1, .jnum 2])).data = .jarr [.jnum 1, .jnum 2] ∧
    isJArray (normalizeToolResult (.jarr [.jnum 1, .jnum 2])).data = true ∧
    (normalizeToolResult (.jarr [.jnum 1, .jnum 2])).rowCount = 1 ∧
    ¬ (normalizeToolResult (.jarr [.jnum 1, .jnum 2])).rowCount = 2 :=
  ⟨rfl, rfl, rfl, by decide⟩

/-- C5 amended, for every tool response: rowCount is keyed on
result.content, not on data - when result.content is an array (even an
empty one), data is that array and rowCount is its length; and whenever
result.content is not an array, rowCount is 1. -/
theorem rowcount_keyed_on_content (r : JVal) :
    (∀ xs, getField r (str "content") = .jarr xs →
      (normalizeToolResult r).data = .jarr xs ∧
      (normalizeToolResult r).rowCount = xs.length) ∧
    (isJArray (getField r (str "content")) = false →
      (normalizeToolResult r).rowCount = 1) := by
  constructor
  · intro xs h
    unfold normalizeToolResult jsOr
    rw [h]
    simp [truthy]
  · intro h
    unfold normalizeToolResult
    cases hc : getField r (str "content") <;> simp_all [isJArray]

/-- C6 counterexample: a successful QueryResult whose data is a non-empty
string, not an array; when the narration call fails the code still
returns the "Found ..." message, where the claim requires "Query
completed successfully." for every non-array data. -/
theorem narration_fallback_string_counterexample :
    isJArray (JVal.jstr (str "x")) = false ∧
    formatResponse ⟨true, .jstr (str "x"), 1⟩ [] (.error (str "boom")) =
      foundMessage 1 (.jstr (str "x")) ∧
    ¬ formatResponse ⟨true, .jstr (str "x"), 1⟩ [] (.error (str "boom")) = queryDoneMessage :=
  ⟨rfl, rfl, by decide⟩

/-- In the fallback condition `sqlResult.data && sqlResult.data.length > 0`
the truthiness conjunct is redundant: every falsy value (undefined, null,
false, 0, the empty string) already fails `.length > 0`. -/
theorem truthy_and_lengthPos (v : JVal) :
    (truthy v && jvalLengthPos v) = jvalLengthPos v := by
  cases v with
  | jstr s =>
    cases s <;> simp [truthy, jvalLengthPos, jvalLength, jsGtZero, jsToNumber]
  | _ => simp [truthy, jvalLengthPos, jvalLength, jsGtZero, jsToNumber]

/-- C6 amended: on a successful QueryResult a narration failure is never
propagated; the fallback is the synthesized "Found ..." message exactly
when JavaScript's `data.length > 0` holds (a non-empty array or string,
or a value whose length property compares greater than zero), and
"Query completed successfully." otherwise. -/
theorem narration_fallback_deterministic (res : QueryResult) (q e : Str)
    (h : res.success = true) :
    (jvalLengthPos res.data = true ∧
      formatResponse res q (.error e) = foundMessage res.rowCount res.data) ∨
    (jvalLengthPos res.data = false ∧
      formatResponse res q (.error e) = queryDoneMessage) := by
  cases hl : jvalLengthPos res.data with
  | false =>
    right
    refine ⟨rfl, ?_⟩
    unfold formatResponse
    rw [h, truthy_and_lengthPos, hl]
    rfl
  | true =>
    left
    refine ⟨rfl, ?_⟩
    unfold formatResponse
    rw [h, truthy_and_lengthPos, hl]
    rfl

/-- C6 amended witness. -/
theorem narration_fallback_deterministic_witness :
    (jvalLengthPos (QueryResult.mk true (.jarr [.jnum 1]) 1).data = true ∧
      formatResponse (QueryResult.mk true (.jarr [.jnum 1]) 1) [] (.error (str "x")) =
        foundMessage (QueryResult.mk true (.jarr [.jnum 1]) 1).rowCount
          (QueryResult.mk true (.jarr [.jnum 1]) 1).data) ∨
    (jvalLengthPos (QueryResult.mk true (.jarr [.jnum 1]) 1).data = false ∧
      formatResponse (QueryResult.mk true (.jarr [.jnum 1]) 1) [] (.error (str "x")) =
        queryDoneMessage) :=
  narration_fallback_deterministic (QueryResult.mk true (.jarr [.jnum 1]) 1) [] (str "x") rfl

/-- C7 counterexample: the 400 response for a body with no message field
carries no success field at all - its body is exactly the one-field
object with the error text - so it is not of the claimed shape
success false plus error. -/
theorem missing_message_no_success_field :
    (chatHandler none chatEnvW).1.status = 400 ∧
    bodyField (chatHandler none chatEnvW).1.body (str "success") = none ∧
    bodyField (chatHandler none chatEnvW).1.body (str "error") =
      some (.jstr (str "No message provided")) ∧
    (chatHandler none chatEnvW).2 = ⟨0, 0, 0⟩ :=
  ⟨rfl, rfl, rfl, rfl⟩

/-- C7 amended: a /chat request without a message field is answered 400
with the body containing only the error text (no success field), and no
external service is invoked. -/
theorem missing_message_returns_400 (env : ChatEnv) :
    chatHandler none env = (⟨400, noMessageBody⟩, ⟨0, 0, 0⟩) ∧
    bodyField noMessageBody (str "success") = none :=
  ⟨rfl, rfl⟩

/-- C8 counterexample: with AWS not initialized, GET /api/aws/identity
and GET /api/aws/stacks/:stackName do not degrade to demo data - they
fail with status 503 and a success false body. -/
theorem identity_endpoint_503_counterexample :
    (identityEndpoint false (.ok (.jobj []))).status = 503 ∧
    bodyField (identityEndpoint false (.ok (.jobj []))).body (str "success") =
      some (.jbool false) ∧
    (describeStackEndpoint false (str "demo-web-app-stack") (fun _ => .ok (.jobj []))).status = 503 ∧
    bodyField (describeStackEndpoint false (str "demo-web-app-stack")
        (fun _ => .ok (.jobj []))).body (str "isDemo") = none :=
  ⟨rfl, rfl, rfl, rfl⟩

/-- C8 amended: when AWS credentials are absent only GET /api/aws/stacks
degrades to the fixed demo payload; /api/aws/identity and
/api/aws/stacks/:stackName answer 503 with the "AWS service not
connected" error body. -/
theorem demo_mode_endpoint_behaviour (ident : Except Str JVal) (name : Str)
    (descr : Str → Except Str JVal) (statusQ regionQ : JVal)
    (list : StackListOptions → Except Str JVal) :
    identityEndpoint false ident = ⟨503, awsNotConnectedBody⟩ ∧
    describeStackEndpoint false name descr = ⟨503, awsNotConnectedBody⟩ ∧
    stacksEndpoint false statusQ regionQ list = ⟨200, demoStacksBody⟩ :=
  ⟨rfl, rfl, rfl⟩

/-- C9: with AWS not initialized, GET /api/aws/stacks answers 200 with
success true, isDemo true, stackCount 3 and exactly three stacks whose
StackName starts with "demo-". -/
theorem demo_stacks_response_shape (statusQ regionQ : JVal)
    (list : StackListOptions → Except Str JVal) :
    (stacksEndpoint false statusQ regionQ list).status = 200 ∧
    bodyField (stacksEndpoint false statusQ regionQ list).body (str "success") =
      some (.jbool true) ∧
    bodyField (stacksEndpoint false statusQ regionQ list).body (str "isDemo") =
      some (.jbool true) ∧
    bodyField (stacksEndpoint false statusQ regionQ list).body (str "stackCount") =
      some (.jnum 3) ∧
    bodyField (stacksEndpoint false statusQ regionQ list).body (str "stacks") =
      some (.jarr demoStacks) ∧
    demoStacks.length = 3 ∧
    demoStacks.all (fun v =>
      match bodyField v (str "StackName") with
      | some (.jstr nm) => (str "demo-").isPrefixOf nm
      | _ => false) = true :=
  ⟨rfl, rfl, rfl, rfl, rfl, rfl, by decide⟩

/- =====================================================================
   Lemmas for C2: the sanitizer's output shape
   ===================================================================== -/

theorem upChar_props (c : Char) :
    isWS (upChar c) = isWS c ∧ (upChar c != '\n') = (c != '\n') := by
  unfold upChar
  cases h : upTable.find? (fun q => q.1 == c) with
  | none => exact ⟨rfl, rfl⟩
  | some p =>
    have hmem : p ∈ upTable := List.mem_of_find?_eq_some h
    have hp := List.find?_some h
    fin_cases hmem <;> (simp only [beq_iff_eq] at hp; subst hp; exact ⟨by decide, by decide⟩)

theorem isWS_upChar (c : Char) : isWS (upChar c) = isWS c := (upChar_props c).1

theorem upChar_bne_newline (c : Char) : (upChar c != '\n') = (c != '\n') :=
  (upChar_props c).2

theorem dropWhile_dropWhile (p : Char → Bool) (l : Str) :
    (l.dropWhile p).dropWhile p = l.dropWhile p := by
  induction l with
  | nil => rfl
  | cons c cs ih =>
    by_cases h : p c = true
    · simp [List.dropWhile_cons, h, ih]
    · simp [List.dropWhile_cons, h]

theorem dropWhile_append_keep (p : Char → Bool) (w : Str) (b : Char) (z : Str)
    (hb : p b = false) :
    (w ++ b :: z).dropWhile p = w.dropWhile p ++ b :: z := by
  induction w with
  | nil => simp [List.dropWhile_cons, hb]
  | cons c cs ih =>
    by_cases h : p c = true
    · simp [List.cons_append, List.dropWhile_cons, h, ih]
    · simp [List.cons_append, List.dropWhile_cons, h]

theorem dropWhile_head_false (p : Char → Bool) (l : Str) (c : Char) (t : Str)
    (h : l.dropWhile p = c :: t) : p c = false := by
  induction l with
  | nil => cases h
  | cons a as ih =>
    by_cases hp : p a = true
    · rw [List.dropWhile_cons, if_pos hp] at h
      exact ih h
    · rw [List.dropWhile_cons, if_neg hp] at h
      injection h with h1 _
      rw [← h1]
      exact Bool.not_eq_true _ ▸ eq_false_of_ne_true hp

theorem trimEnd_cons_nonws (c : Char) (u : Str) (h : isWS c = false) :
    trimEnd (c :: u) = c :: trimEnd u := by
  unfold trimEnd
  rw [List.reverse_cons, dropWhile_append_keep isWS u.reverse c [] h, List.reverse_append]
  rfl

theorem trimEnd_idem (u : Str) : trimEnd (trimEnd u) = trimEnd u := by
  unfold trimEnd
  rw [List.reverse_reverse, dropWhile_dropWhile]

theorem jsTrim_cons_ws (c : Char) (u : Str) (h : isWS c = true) :
    jsTrim (c :: u) = jsTrim u := by
  unfold jsTrim
  rw [List.dropWhile_cons, if_pos h]

theorem jsTrim_cons_nonws (c : Char) (u : Str) (h : isWS c = false) :
    jsTrim (c :: u) = c :: trimEnd u := by
  unfold jsTrim
  rw [List.dropWhile_cons, if_neg (by simp [h])]
  exact trimEnd_cons_nonws c u h

theorem jsTrim_idem (u : Str) : jsTrim (jsTrim u) = jsTrim u := by
  cases hd : u.dropWhile isWS with
  | nil =>
    show jsTrim (trimEnd (u.dropWhile isWS)) = trimEnd (u.dropWhile isWS)
    rw [hd]
    rfl
  | cons c t =>
    have hc : isWS c = false := dropWhile_head_false isWS u c t hd
    show jsTrim (trimEnd (u.dropWhile isWS)) = trimEnd (u.dropWhile isWS)
    rw [hd, trimEnd_cons_nonws c t hc, jsTrim_cons_nonws c (trimEnd t) hc, trimEnd_idem]

theorem stripFences_trimFixed (u : Str) (h : jsTrim u = u) :
    jsTrim (stripFences u) = stripFences u := by
  unfold stripFences
  repeat' split
  all_goals first
  | exact h
  | exact jsTrim_idem _

theorem stripLeadingProse_eq (v : Str) :
    stripLeadingProse v =
      match (splitLines v).findIdx? lineHasSQLKeyword with
      | some idx =>
        if jsTrim (List.intercalate (str "\n") ((splitLines v).drop idx)) = [] then v
        else jsTrim (List.intercalate (str "\n") ((splitLines v).drop idx))
      | none => v := rfl

theorem stripLeadingProse_trimFixed (u : Str) (h : jsTrim u = u) :
    jsTrim (stripLeadingProse u) = stripLeadingProse u := by
  rw [stripLeadingProse_eq]
  cases hidx : (splitLines u).findIdx? lineHasSQLKeyword with
  | none => exact h
  | some idx =>
    dsimp only
    by_cases hc : jsTrim (List.intercalate (str "\n") ((splitLines u).drop idx)) = []
    · rw [if_pos hc]
      exact h
    · rw [if_neg hc]
      exact jsTrim_idem _

theorem dropWhile_ws_map_upChar (l : Str) :
    (l.map upChar).dropWhile isWS = (l.dropWhile isWS).map upChar := by
  induction l with
  | nil => rfl
  | cons c cs ih =>
    rw [List.map_cons, List.dropWhile_cons, List.dropWhile_cons, isWS_upChar]
    by_cases h : isWS c = true
    · rw [if_pos h, if_pos h, ih]
    · rw [if_neg h, if_neg h, List.map_cons]

theorem takeWhile_notNL_map_upChar (l : Str) :
    (l.map upChar).takeWhile (fun c => c != '\n') =
    (l.takeWhile (fun c => c != '\n')).map upChar := by
  induction l with
  | nil => rfl
  | cons c cs ih =>
    rw [List.map_cons, List.takeWhile_cons, List.takeWhile_cons, upChar_bne_newline]
    by_cases h : (c != '\n') = true
    · rw [if_pos h, if_pos h, List.map_cons, ih]
    · rw [if_neg h, if_neg h]
      rfl

theorem strUpper_trimEnd (u : Str) : strUpper (trimEnd u) = trimEnd (strUpper u) := by
  unfold strUpper trimEnd
  rw [← List.map_reverse, dropWhile_ws_map_upChar, ← List.map_reverse]

theorem strUpper_jsTrim (u : Str) : strUpper (jsTrim u) = jsTrim (strUpper u) := by
  unfold jsTrim
  rw [strUpper_trimEnd]
  show trimEnd (strUpper (u.dropWhile isWS)) = trimEnd ((strUpper u).dropWhile isWS)
  unfold strUpper
  rw [dropWhile_ws_map_upChar]

theorem nil_isPrefixOf_eq (u : Str) : ([] : Str).isPrefixOf u = true := by
  cases u <;> rfl

theorem isPrefixOf_iff_exists (k u : Str) : k.isPrefixOf u = true ↔ ∃ t, u = k ++ t := by
  induction k generalizing u with
  | nil =>
    constructor
    · intro _
      exact ⟨u, rfl⟩
    · intro _
      exact nil_isPrefixOf_eq u
  | cons a k ih =>
    cases u with
    | nil =>
      constructor
      · intro h
        cases h
      · rintro ⟨t, ht⟩
        cases ht
    | cons b u' =>
      constructor
      · intro h
        have h' := h
        simp only [List.isPrefixOf, Bool.and_eq_true, beq_iff_eq] at h'
        obtain ⟨hab, h2⟩ := h'
        obtain ⟨t, ht⟩ := (ih u').mp h2
        exact ⟨t, by rw [hab, ht]; rfl⟩
      · rintro ⟨t, ht⟩
        injection ht with h1 h2
        simp only [List.isPrefixOf, Bool.and_eq_true, beq_iff_eq]
        exact ⟨h1.symm, (ih u').mpr ⟨t, h2⟩⟩

theorem prefixOf_takeWhile_notNL (k u : Str)
    (hk : k.all (fun c => c != '\n') = true)
    (h : k.isPrefixOf u = true) :
    k.isPrefixOf (u.takeWhile (fun c => c != '\n')) = true := by
  induction k generalizing u with
  | nil => exact nil_isPrefixOf_eq _
  | cons a k ih =>
    cases u with
    | nil => cases h
    | cons b u' =>
      simp only [List.isPrefixOf, Bool.and_eq_true, beq_iff_eq] at h
      obtain ⟨hab, h2⟩ := h
      simp only [List.all_cons, Bool.and_eq_true] at hk
      obtain ⟨ha, hk'⟩ := hk
      subst hab
      rw [List.takeWhile_cons, if_pos ha]
      simp only [List.isPrefixOf, Bool.and_eq_true, beq_iff_eq]
      exact ⟨trivial, ih u' hk' h2⟩

theorem prefixOf_trimEnd_of_all_nonws (k u : Str)
    (hk : k.all (fun c => !isWS c) = true)
    (h : k.isPrefixOf u = true) :
    k.isPrefixOf (trimEnd u) = true := by
  cases k with
  | nil => exact nil_isPrefixOf_eq _
  | cons a k' =>
    obtain ⟨t, ht⟩ := (isPrefixOf_iff_exists _ _).mp h
    subst ht
    cases hr : (a :: k').reverse with
    | nil => exact absurd hr (by simp)
    | cons b z =>
      have hb : b ∈ a :: k' := by
        have hmem : b ∈ (a :: k').reverse := by
          rw [hr]
          exact List.mem_cons_self b z
        exact List.mem_reverse.mp hmem
      have hbws : isWS b = false := by
        have := List.all_eq_true.mp hk b hb
        simpa using this
      unfold trimEnd
      rw [List.reverse_append, hr, dropWhile_append_keep isWS t.reverse b z hbws,
        List.reverse_append]
      have hrev : (b :: z).reverse = a :: k' := by
        rw [← hr, List.reverse_reverse]
      rw [hrev]
      exact (isPrefixOf_iff_exists _ _).mpr ⟨_, rfl⟩

theorem splitLines_ne_nil (u : Str) : splitLines u ≠ [] := by
  cases u with
  | nil => simp [splitLines]
  | cons c cs =>
    unfold splitLines
    by_cases h : c = '\n'
    · simp [h]
    · rw [if_neg h]
      cases hs : splitLines cs <;> simp

theorem splitLines_cons_not_nl (c : Char) (t : Str) (h : ¬ c = '\n') :
    splitLines (c :: t) = (c :: (splitLines t).headD []) :: (splitLines t).tail := by
  have e : splitLines (c :: t) =
      if c = '\n' then [] :: splitLines t
      else
        match splitLines t with
        | [] => [[c]]
        | l :: ls => (c :: l) :: ls := rfl
  rw [e, if_neg h]
  cases hs : splitLines t with
  | nil => exact absurd hs (splitLines_ne_nil t)
  | cons l ls => rfl

theorem splitLines_head_takeWhile (u : Str) :
    (splitLines u).headD [] = u.takeWhile (fun c => c != '\n') := by
  induction u with
  | nil => rfl
  | cons c t ih =>
    by_cases h : c = '\n'
    · subst h
      simp [splitLines, List.takeWhile_cons]
    · rw [splitLines_cons_not_nl c t h, List.takeWhile_cons]
      have hb : (c != '\n') = true := by simpa using h
      rw [if_pos hb, List.headD_cons, ih]

theorem firstNonBlankLine_cons_nonws (c : Char) (t : Str) (h : isWS c = false) :
    firstNonBlankLine (c :: t) = c :: t.takeWhile (fun x => x != '\n') := by
  have hcn : ¬ c = '\n' := fun he => by rw [he] at h; exact absurd h (by decide)
  unfold firstNonBlankLine
  rw [splitLines_cons_not_nl c t hcn, List.filter_cons]
  have hne : (!(jsTrim (c :: (splitLines t).headD [])).isEmpty) = true := by
    rw [jsTrim_cons_nonws c _ h]
    rfl
  rw [if_pos hne, List.headD_cons, splitLines_head_takeWhile]

theorem length_dropWhile_le_self (p : Char → Bool) (l : Str) :
    (l.dropWhile p).length ≤ l.length := by
  induction l with
  | nil => simp
  | cons c cs ih =>
    by_cases h : p c = true
    · rw [List.dropWhile_cons, if_pos h]
      exact le_trans ih (Nat.le_succ _)
    · rw [List.dropWhile_cons, if_neg h]

theorem length_jsTrim_le (u : Str) : (jsTrim u).length ≤ u.length := by
  calc (jsTrim u).length
      = (List.dropWhile isWS ((u.dropWhile isWS).reverse)).length := by
        unfold jsTrim trimEnd
        rw [List.length_reverse]
    _ ≤ ((u.dropWhile isWS).reverse).length := length_dropWhile_le_self _ _
    _ = (u.dropWhile isWS).length := List.length_reverse _
    _ ≤ u.length := length_dropWhile_le_self _ _

theorem trimFixed_head_nonws (c : Char) (t : Str) (h : jsTrim (c :: t) = c :: t) :
    isWS c = false := by
  by_cases hc : isWS c = true
  · exfalso
    rw [jsTrim_cons_ws c t hc] at h
    have hl : (jsTrim t).length ≤ t.length := length_jsTrim_le t
    rw [h] at hl
    simp only [List.length_cons] at hl
    omega
  · simpa using hc

theorem sqlKeywords_wf :
    ∀ k ∈ sqlKeywords,
      (k ≠ [] ∧ k.all (fun c => !isWS c) = true) ∧ k.all (fun c => c != '\n') = true := by
  decide

theorem startsWith_keyword_first_line (s : Str)
    (hfix : jsTrim s = s)
    (h : startsWithSQLKeyword s = true) :
    lineStartsWithSQLKeyword (firstNonBlankLine s) = true := by
  unfold startsWithSQLKeyword at h
  obtain ⟨k, hkmem, hk⟩ := List.any_eq_true.mp h
  have e1 : jsTrim (strUpper s) = strUpper s := by
    rw [← strUpper_jsTrim, hfix]
  rw [e1] at hk
  obtain ⟨⟨hknil, _⟩, hknl⟩ := sqlKeywords_wf k hkmem
  cases s with
  | nil =>
    exfalso
    obtain ⟨t, ht⟩ := (isPrefixOf_iff_exists _ _).mp hk
    simp [strUpper] at ht
    exact hknil ht.1
  | cons c t =>
    have hc : isWS c = false := trimFixed_head_nonws c t hfix
    have hcn' : ¬ c = '\n' := fun he => by rw [he] at hc; exact absurd hc (by decide)
    have hcn : (c != '\n') = true := by simpa using hcn'
    rw [firstNonBlankLine_cons_nonws c t hc]
    unfold lineStartsWithSQLKeyword
    apply List.any_eq_true.mpr
    refine ⟨k, hkmem, ?_⟩
    have e2 : (c :: t.takeWhile (fun x => x != '\n')) = (c :: t).takeWhile (fun x => x != '\n') := by
      rw [List.takeWhile_cons, if_pos hcn]
    rw [e2]
    unfold strUpper
    rw [← takeWhile_notNL_map_upChar]
    unfold strUpper at hk
    exact prefixOf_takeWhile_notNL k _ hknl hk

/-- C2: the sanitizer inside translateQuestionToSQL returns either
exactly the string INVALID_QUERY, or a string whose first non-blank
line starts (case-insensitively) with one of the recognized SQL
keywords - never a hybrid string with leading prose before the SQL. -/
theorem sanitizer_first_line_keyword_or_invalid (completion : Str) :
    sanitizeCompletion completion = str "INVALID_QUERY" ∨
    lineStartsWithSQLKeyword (firstNonBlankLine (sanitizeCompletion completion)) = true := by
  have e : sanitizeCompletion completion =
      if startsWithSQLKeyword (stripLeadingProse (stripFences (jsTrim completion)))
      then stripLeadingProse (stripFences (jsTrim completion))
      else str "INVALID_QUERY" := rfl
  rw [e]
  by_cases h : startsWithSQLKeyword (stripLeadingProse (stripFences (jsTrim completion))) = true
  · right
    rw [if_pos h]
    exact startsWith_keyword_first_line _
      (stripLeadingProse_trimFixed _ (stripFences_trimFixed _ (jsTrim_idem _))) h
  · left
    rw [if_neg h]
